import Mathlib

/-
Verification of the touchpad gesture converter specified in spec.md
(services/inputflinger gestures translator of this repository).

The repository ships the behavioural test suite
src/services/inputflinger/tests/GestureConverter_test.cpp but not the
converter implementation itself, so the converter is modelled here from the
specification, with the numeric conventions fixed by the expectations of the
shipped test suite (rotation convention, the 1/1000 scale and y-negation of
auxiliary gesture offsets, fake-finger staging orders).

Coordinates and deltas are embedded as rational numbers; the event stream of
one call is an explicit list of motion events; the converter's continuation
state is an explicit record threaded through every call.
-/

namespace GestureConverter

/-- Modelled from the spec: display orientation, one of 0, 90, 180, 270
degrees. -/
inductive Rotation
  | r0
  | r90
  | r180
  | r270
deriving DecidableEq

/-- Modelled from the spec: the locked movement axis of an active
multi-finger swipe family. -/
inductive Axis
  | x
  | y
deriving DecidableEq

/-- Modelled from the spec: motion-event action codes (down, move, up,
pointer-down, pointer-up, button-press, button-release, hover-move).
Pointer-down and pointer-up carry the positional pointer index. -/
inductive MotionAction
  | down
  | move
  | up
  | hoverMove
  | pointerDown (idx : Nat)
  | pointerUp (idx : Nat)
  | buttonPress
  | buttonRelease
deriving DecidableEq

/-- Modelled from the spec: the motion-classification tag of an emitted
event. -/
inductive MotionClassification
  | none
  | multiFingerSwipe
deriving DecidableEq

/-- Modelled from the spec: one emitted motion event: action code, ordered
per-pointer coordinates, pressure, button-state bitmask, action button,
classification tag, auxiliary gesture offset, and the reported relative
motion. -/
structure MotionEvent where
  action : MotionAction
  pointers : List (ℚ × ℚ)
  pressure : ℚ
  buttonState : Nat
  actionButton : Nat
  classification : MotionClassification
  gestureOffset : ℚ × ℚ
  relativeMotion : ℚ × ℚ
deriving DecidableEq

/-- Modelled from the spec: the decoded gesture value supplied by the
external gesture library, restricted to the variants the behavioural
contract exercises; every other variant is collapsed into `unsupported`,
which by the spec's permissive default yields no output. -/
inductive Gesture
  | move (dx dy : ℚ)
  | buttonsChange (downMask upMask : Nat)
  | swipe (dx dy : ℚ)
  | fourFingerSwipe (dx dy : ℚ)
  | swipeLift
  | unsupported
deriving DecidableEq

/-- Modelled from the spec: the converter's persistent continuation state:
screen bounds, orientation, absolute cursor position, pressed-button
bitmask, and the multi-finger-swipe synthesizer state (virtual pointer
table, accumulated fractional offset, axis lock). `swipeFingerCount = 0`
is the Idle synthesizer state. -/
structure Converter where
  screenWidth : ℚ
  screenHeight : ℚ
  orientation : Rotation
  posX : ℚ
  posY : ℚ
  buttonState : Nat
  swipeFingerCount : Nat
  fingers : List (ℚ × ℚ)
  accumX : ℚ
  accumY : ℚ
  axisLock : Option Axis
deriving DecidableEq

/-- Modelled from the spec: rotation of a relative delta by the current
display orientation. The 90-degree convention is the one the shipped test
suite pins down: rotation 90 sends a delta of (-5, 10) to (10, 5). -/
def rotateDelta (o : Rotation) (d : ℚ × ℚ) : ℚ × ℚ :=
  match o with
  | Rotation.r0 => d
  | Rotation.r90 => (d.2, -d.1)
  | Rotation.r180 => (-d.1, -d.2)
  | Rotation.r270 => (-d.2, d.1)

/-- Modelled from the spec: clamping of a coordinate into a closed
interval. -/
def clampTo (lo hi q : ℚ) : ℚ := max lo (min hi q)

/-- Modelled from the spec: the Move gesture handler. The rotated delta is
added to the absolute cursor position, which is clamped to the screen
bounds; exactly one event is emitted, a hover-move with pressure 0 when no
button is pressed and a move with pressure 1 during a button drag, with
classification none and zero auxiliary offset. -/
def handleMove (s : Converter) (dx dy : ℚ) : Converter × List MotionEvent :=
  let r := rotateDelta s.orientation (dx, dy)
  let nx := clampTo 0 (s.screenWidth - 1) (s.posX + r.1)
  let ny := clampTo 0 (s.screenHeight - 1) (s.posY + r.2)
  ({ s with posX := nx, posY := ny },
   [{ action := if s.buttonState = 0 then MotionAction.hoverMove else MotionAction.move,
      pointers := [(nx, ny)],
      pressure := if s.buttonState = 0 then 0 else 1,
      buttonState := s.buttonState,
      actionButton := 0,
      classification := MotionClassification.none,
      gestureOffset := (0, 0),
      relativeMotion := r }])

/-- Modelled from the spec: the fixed priority order of button bits
(primary, secondary, tertiary, back, forward). -/
def buttonOrder : List Nat := [1, 2, 4, 8, 16]

/-- Modelled from the spec: removal of the bits of `b` from the mask
`m`. -/
def clearBits (m b : Nat) : Nat := m ^^^ (m &&& b)

/-- Modelled from the spec: the shape of one button-machine event (action
code, action button, resulting button-state mask); the position decoration
is added by the handler. -/
structure ButtonEventShape where
  action : MotionAction
  actionButton : Nat
  buttonState : Nat
deriving DecidableEq

/-- Modelled from the spec: one button-press event per down-mask bit in
priority order, the button-state mask accumulating bit by bit from `m`;
returns the events together with the resulting mask. -/
def pressSteps (m downMask : Nat) : List ButtonEventShape × Nat :=
  buttonOrder.foldl
    (fun acc b =>
      if downMask &&& b ≠ 0 then
        (acc.1 ++ [⟨MotionAction.buttonPress, b, acc.2 ||| b⟩], acc.2 ||| b)
      else acc)
    ([], m)

/-- Modelled from the spec: one button-release event per up-mask bit in
priority order, each button-state excluding the released bit; returns the
events together with the resulting mask. -/
def releaseSteps (m upMask : Nat) : List ButtonEventShape × Nat :=
  buttonOrder.foldl
    (fun acc b =>
      if upMask &&& b ≠ 0 then
        (acc.1 ++ [⟨MotionAction.buttonRelease, b, clearBits acc.2 b⟩], clearBits acc.2 b)
      else acc)
    ([], m)

/-- Modelled from the spec: the full event-shape sequence of one
ButtonsChange gesture: a down envelope when the mask was empty and the
down-mask is not, the presses, the releases, and a trailing up envelope
when the mask transitions to empty as a result of the up-mask; returns the
shapes together with the new pressed mask. -/
def buttonsChangeShapes (m downMask upMask : Nat) : List ButtonEventShape × Nat :=
  let env := if m = 0 ∧ downMask ≠ 0 then [⟨MotionAction.down, 0, m ||| downMask⟩] else []
  let ps := pressSteps m downMask
  let rs := releaseSteps ps.2 upMask
  let envUp := if ps.2 ≠ 0 ∧ rs.2 = 0 then [⟨MotionAction.up, 0, 0⟩] else []
  (env ++ ps.1 ++ rs.1 ++ envUp, rs.2)

/-- Modelled from the spec: decoration of a button-machine event shape with
the current absolute cursor position. -/
def buttonEventAt (pos : ℚ × ℚ) (b : ButtonEventShape) : MotionEvent :=
  { action := b.action,
    pointers := [pos],
    pressure := 1,
    buttonState := b.buttonState,
    actionButton := b.actionButton,
    classification := MotionClassification.none,
    gestureOffset := (0, 0),
    relativeMotion := (0, 0) }

/-- Modelled from the spec: the ButtonsChange handler; every emitted event
carries the current absolute cursor position, which the handler never
moves. -/
def handleButtonsChange (s : Converter) (downMask upMask : Nat) :
    Converter × List MotionEvent :=
  let r := buttonsChangeShapes s.buttonState downMask upMask
  ({ s with buttonState := r.2 }, r.1.map (buttonEventAt (s.posX, s.posY)))

/-- Modelled from the spec: the whole-unit pixel part of an accumulated
offset, i.e. its floor; the spec leaves the exact rounding convention open
and only requires the fractional remainder to be carried forward
losslessly. -/
def wholePart (q : ℚ) : ℤ := ⌊q⌋

/-- Modelled from the spec: axis locking: the axis is locked by the first
non-zero delta observed in the family and never changes afterwards; when
both components are non-zero the x axis is chosen. -/
def lockAxis (prev : Option Axis) (dx dy : ℚ) : Option Axis :=
  match prev with
  | some a => some a
  | none => if dx ≠ 0 then some Axis.x else if dy ≠ 0 then some Axis.y else none

/-- Modelled from the spec: the raw delta of one call with the unlocked
axis zeroed. -/
def lockedDelta (lock : Option Axis) (dx dy : ℚ) : ℚ × ℚ :=
  match lock with
  | some Axis.x => (dx, 0)
  | some Axis.y => (0, dy)
  | none => (0, 0)

/-- Modelled from the spec: one continuation step of an active multi-finger
swipe family: lock the axis if not yet locked, zero the unlocked axis,
accumulate, apply the whole-unit part uniformly to every virtual pointer
(the y delta negated, as the test suite pins down), carry the fractional
remainder, and emit one move event holding every pointer coordinate,
classification multi-finger-swipe, and the raw per-call delta scaled by
1/1000 (y negated) as auxiliary offset. -/
def swipeMoveStep (s : Converter) (dx dy : ℚ) : Converter × MotionEvent :=
  let lock := lockAxis s.axisLock dx dy
  let e := lockedDelta lock dx dy
  let ax := s.accumX + e.1
  let ay := s.accumY - e.2
  let wx : ℚ := (wholePart ax : ℤ)
  let wy : ℚ := (wholePart ay : ℤ)
  let newFingers := s.fingers.map (fun p => (p.1 + wx, p.2 + wy))
  ({ s with fingers := newFingers, accumX := ax - wx, accumY := ay - wy, axisLock := lock },
   { action := MotionAction.move,
     pointers := newFingers,
     pressure := 1,
     buttonState := s.buttonState,
     actionButton := 0,
     classification := MotionClassification.multiFingerSwipe,
     gestureOffset := (e.1 / 1000, -e.2 / 1000),
     relativeMotion := (0, 0) })

/-- Modelled from the spec: initial placement of the fabricated virtual
pointers around the real cursor position. The exact layout is
implementation-defined by the spec; the layout only has to give each finger
a distinct coordinate, and no claim depends on it. -/
def fingerStartPositions (s : Converter) (n : Nat) : List (ℚ × ℚ) :=
  (List.range n).map (fun i => (s.posX + 100 * (i : ℚ), s.posY))

/-- Modelled from the spec: the staged pointer-acquisition events of a
swipe start: the first is a plain down with one pointer, each subsequent
one a pointer-down with increasing pointer index and growing pointer list,
all with classification multi-finger-swipe and zero offset. -/
def acquisitionEvents (s : Converter) (fingers : List (ℚ × ℚ)) (n : Nat) :
    List MotionEvent :=
  (List.range n).map (fun i =>
    { action := if i = 0 then MotionAction.down else MotionAction.pointerDown i,
      pointers := fingers.take (i + 1),
      pressure := 1,
      buttonState := s.buttonState,
      actionButton := 0,
      classification := MotionClassification.multiFingerSwipe,
      gestureOffset := (0, 0),
      relativeMotion := (0, 0) })

/-- Modelled from the spec: the multi-finger swipe handler. When the
synthesizer is Idle the call is a family start: fabricate the virtual
pointers, emit the staged acquisition events, and, when the start delta is
non-zero, one move event; when already Active the call is a continuation
and emits exactly one move event. -/
def handleMultiFingerSwipe (n : Nat) (dx dy : ℚ) (s : Converter) :
    Converter × List MotionEvent :=
  if s.swipeFingerCount ≠ 0 then
    let r := swipeMoveStep s dx dy
    (r.1, [r.2])
  else
    let fingers := fingerStartPositions s n
    let acq := acquisitionEvents s fingers n
    let s1 := { s with swipeFingerCount := n, fingers := fingers,
                       accumX := 0, accumY := 0, axisLock := none }
    if dx = 0 ∧ dy = 0 then (s1, acq)
    else
      let r := swipeMoveStep s1 dx dy
      (r.1, acq ++ [r.2])

/-- Modelled from the spec: the SwipeLift handler: pointer-up events in
reverse acquisition order (the last-acquired pointer first, the pointer
count shrinking by one each time) ending with a plain up for the last
remaining pointer, all with classification multi-finger-swipe and zero
offset; the virtual pointer table, the accumulated offset and the axis
lock are cleared. A lift while Idle yields no output. -/
def handleSwipeLift (s : Converter) : Converter × List MotionEvent :=
  if s.swipeFingerCount = 0 then (s, [])
  else
    let n := s.swipeFingerCount
    let ups := (List.range (n - 1)).map (fun k =>
      { action := MotionAction.pointerUp (n - 1 - k),
        pointers := s.fingers.take (n - k),
        pressure := 1,
        buttonState := s.buttonState,
        actionButton := 0,
        classification := MotionClassification.multiFingerSwipe,
        gestureOffset := ((0 : ℚ), (0 : ℚ)),
        relativeMotion := ((0 : ℚ), (0 : ℚ)) })
    let lastUp : MotionEvent :=
      { action := MotionAction.up,
        pointers := s.fingers.take 1,
        pressure := 1,
        buttonState := s.buttonState,
        actionButton := 0,
        classification := MotionClassification.multiFingerSwipe,
        gestureOffset := (0, 0),
        relativeMotion := (0, 0) }
    ({ s with swipeFingerCount := 0, fingers := [],
              accumX := 0, accumY := 0, axisLock := none },
     ups ++ [lastUp])

/-- Modelled from the spec: the dispatcher: one handler per variant, the
Swipe variant with three fingers, FourFingerSwipe with four, and the
permissive empty default for unsupported variants. -/
def handleGesture (s : Converter) (g : Gesture) : Converter × List MotionEvent :=
  match g with
  | Gesture.move dx dy => handleMove s dx dy
  | Gesture.buttonsChange d u => handleButtonsChange s d u
  | Gesture.swipe dx dy => handleMultiFingerSwipe 3 dx dy s
  | Gesture.fourFingerSwipe dx dy => handleMultiFingerSwipe 4 dx dy s
  | Gesture.swipeLift => handleSwipeLift s
  | Gesture.unsupported => (s, [])

/-- Modelled from the spec: the orientation setter. -/
def setOrientation (s : Converter) (o : Rotation) : Converter :=
  { s with orientation := o }

/-- The converter state the behavioural test suite starts from: an
800 x 480 screen, cursor at (100, 200), no buttons pressed, synthesizer
Idle. -/
def initialConverter : Converter :=
  { screenWidth := 800,
    screenHeight := 480,
    orientation := Rotation.r0,
    posX := 100,
    posY := 200,
    buttonState := 0,
    swipeFingerCount := 0,
    fingers := [],
    accumX := 0,
    accumY := 0,
    axisLock := none }

/-- Sequential handling of a gesture stream, concatenating the emitted
events of every call. -/
def runGestures (s : Converter) : List Gesture → Converter × List MotionEvent
  | [] => (s, [])
  | g :: gs =>
    let r := handleGesture s g
    let rest := runGestures r.1 gs
    (rest.1, r.2 ++ rest.2)

/-- The button-machine shape of an emitted event: action code, action
button, button-state mask. -/
def bshape (e : MotionEvent) : MotionAction × Nat × Nat :=
  (e.action, e.actionButton, e.buttonState)

/-- The swipe shape of an emitted event: action code, pointer count,
classification, auxiliary gesture offset. -/
def sshape (e : MotionEvent) : MotionAction × Nat × MotionClassification × (ℚ × ℚ) :=
  (e.action, e.pointers.length, e.classification, e.gestureOffset)

/-- Componentwise sum of the auxiliary gesture offsets of a list of
events. -/
def sumOffsets (es : List MotionEvent) : ℚ × ℚ :=
  ((es.map (fun e => e.gestureOffset.1)).sum, (es.map (fun e => e.gestureOffset.2)).sum)

/-- C7: every Move gesture yields exactly one motion event, its
classification is none and its button-state bitmask equals the mask held
before the call, and the button state machine's mask is unchanged by Move
gestures. -/
theorem move_single_event_button_invariant (s : Converter) (dx dy : ℚ) :
    ((handleGesture s (Gesture.move dx dy)).2).map
        (fun e => (e.classification, e.buttonState)) =
      [(MotionClassification.none, s.buttonState)] ∧
    (handleGesture s (Gesture.move dx dy)).1.buttonState = s.buttonState := by
  constructor <;> simp [handleGesture, handleMove]

/-- C9: the single event of a Move gesture is a hover-move with pressure 0
when no button is pressed and a move with pressure 1 when at least one
button is pressed; its coordinates equal the updated absolute cursor
position and it reports the rotated relative motion. -/
theorem move_action_pressure_by_buttons (s : Converter) (dx dy : ℚ) :
    (s.buttonState = 0 →
      ((handleGesture s (Gesture.move dx dy)).2).map (fun e => (e.action, e.pressure)) =
        [(MotionAction.hoverMove, 0)]) ∧
    (s.buttonState ≠ 0 →
      ((handleGesture s (Gesture.move dx dy)).2).map (fun e => (e.action, e.pressure)) =
        [(MotionAction.move, 1)]) ∧
    ((handleGesture s (Gesture.move dx dy)).2).map
        (fun e => (e.pointers, e.relativeMotion)) =
      [([((handleGesture s (Gesture.move dx dy)).1.posX,
          (handleGesture s (Gesture.move dx dy)).1.posY)],
        rotateDelta s.orientation (dx, dy))] := by
  refine ⟨fun h => ?_, fun h => ?_, ?_⟩ <;>
    simp [handleGesture, handleMove, *]

/-- C9 witness: both branches evaluated at the test-suite state: no
buttons pressed gives a hover-move with pressure 0, a pressed primary
button gives a move with pressure 1. -/
theorem move_action_pressure_by_buttons_witness :
    (((handleGesture initialConverter (Gesture.move (-5) 10)).2).map
        (fun e => (e.action, e.pressure)) =
      [(MotionAction.hoverMove, 0)]) ∧
    (((handleGesture { initialConverter with buttonState := 1 }
          (Gesture.move (-5) 10)).2).map (fun e => (e.action, e.pressure)) =
      [(MotionAction.move, 1)]) :=
  ⟨(move_action_pressure_by_buttons initialConverter (-5) 10).1 rfl,
   (move_action_pressure_by_buttons { initialConverter with buttonState := 1 }
      (-5) 10).2.1 (by decide)⟩

/-- C10: a ButtonsChange gesture leaves the absolute cursor position
unchanged and every event it emits carries the current cursor position as
its coordinates. -/
theorem buttonsChange_keeps_position (s : Converter) (d u : Nat) :
    (handleGesture s (Gesture.buttonsChange d u)).1.posX = s.posX ∧
    (handleGesture s (Gesture.buttonsChange d u)).1.posY = s.posY ∧
    ((handleGesture s (Gesture.buttonsChange d u)).2).all
        (fun e => e.pointers = [(s.posX, s.posY)]) = true := by
  refine ⟨?_, ?_, ?_⟩ <;>
    simp [handleGesture, handleButtonsChange, buttonEventAt, List.all_eq_true]

/-- C6: the Move handler reports exactly the rotated relative motion; the
rotation preserves the squared magnitude of the delta for every
orientation, rotation 90 sends a delta to (dy, -dx), rotation 180 negates
both axes, rotation 270 is the inverse of rotation 90; and whenever the
updated position stays inside the screen bounds the change of the absolute
cursor position is exactly the rotated delta. -/
theorem move_rotation_convention (s : Converter) (o : Rotation) (dx dy : ℚ) :
    ((handleGesture s (Gesture.move dx dy)).2).map (fun e => e.relativeMotion) =
      [rotateDelta s.orientation (dx, dy)] ∧
    (rotateDelta o (dx, dy)).1 ^ 2 + (rotateDelta o (dx, dy)).2 ^ 2 =
      dx ^ 2 + dy ^ 2 ∧
    rotateDelta Rotation.r90 (dx, dy) = (dy, -dx) ∧
    rotateDelta Rotation.r180 (dx, dy) = (-dx, -dy) ∧
    rotateDelta Rotation.r270 (rotateDelta Rotation.r90 (dx, dy)) = (dx, dy) ∧
    (0 ≤ s.posX + (rotateDelta s.orientation (dx, dy)).1 →
      s.posX + (rotateDelta s.orientation (dx, dy)).1 ≤ s.screenWidth - 1 →
      0 ≤ s.posY + (rotateDelta s.orientation (dx, dy)).2 →
      s.posY + (rotateDelta s.orientation (dx, dy)).2 ≤ s.screenHeight - 1 →
      ((handleGesture s (Gesture.move dx dy)).1.posX - s.posX,
       (handleGesture s (Gesture.move dx dy)).1.posY - s.posY) =
        rotateDelta s.orientation (dx, dy)) := by
  refine ⟨?_, ?_, rfl, rfl, ?_, fun h1 h2 h3 h4 => ?_⟩
  · simp [handleGesture, handleMove]
  · cases o <;> simp [rotateDelta] <;> ring
  · simp [rotateDelta]
  · simp only [handleGesture, handleMove, clampTo]
    rw [min_eq_right h2, max_eq_right h1, min_eq_right h4, max_eq_right h3]
    simp

/-- C6 witness: the rotated test gesture: at rotation 90 the delta (-5, 10)
becomes (10, 5), moving the cursor from (100, 200) to (110, 205). -/
theorem move_rotation_convention_witness :
    ((handleGesture (setOrientation initialConverter Rotation.r90)
          (Gesture.move (-5) 10)).1.posX -
        (setOrientation initialConverter Rotation.r90).posX,
      (handleGesture (setOrientation initialConverter Rotation.r90)
          (Gesture.move (-5) 10)).1.posY -
        (setOrientation initialConverter Rotation.r90).posY) =
      rotateDelta (setOrientation initialConverter Rotation.r90).orientation
        (-5, 10) :=
  (move_rotation_convention (setOrientation initialConverter Rotation.r90)
        Rotation.r90 (-5) 10).2.2.2.2.2
    (by norm_num [initialConverter, setOrientation, rotateDelta])
    (by norm_num [initialConverter, setOrientation, rotateDelta])
    (by norm_num [initialConverter, setOrientation, rotateDelta])
    (by norm_num [initialConverter, setOrientation, rotateDelta])

/-- Spec-side refinement target for C4, following the claim's words: a
press of down-mask `d` from an empty mask begins with one down envelope
whose button-state is the whole down-mask, followed by one button-press
per down-mask bit in the fixed priority order, the button-state
accumulating bit by bit. -/
def buttonsDownSequenceSpec (d : Nat) : List (MotionAction × Nat × Nat) :=
  (MotionAction.down, 0, d) ::
    (((buttonOrder.filter (fun b => d &&& b ≠ 0)).foldl
        (fun acc b => (acc.1 ++ [(MotionAction.buttonPress, b, acc.2 ||| b)], acc.2 ||| b))
        ([], 0)).1)

/-- The button-machine shapes of the events of a ButtonsChange call are
exactly the shapes computed by `buttonsChangeShapes` on the current
mask. -/
theorem handleButtonsChange_bshape (s : Converter) (d u : Nat) :
    ((handleGesture s (Gesture.buttonsChange d u)).2).map bshape =
      ((buttonsChangeShapes s.buttonState d u).1).map
        (fun b => (b.action, b.actionButton, b.buttonState)) := by
  simp [handleGesture, handleButtonsChange, bshape, buttonEventAt,
    List.map_map, Function.comp]

/-- Press scenario, checked for every down-mask over the five supported
buttons: from an empty mask the shapes are the spec sequence and the
event count is one plus the number of pressed bits. -/
theorem pressScenario_check : ∀ d < 32, d ≠ 0 →
    ((buttonsChangeShapes 0 d 0).1).map
        (fun b => (b.action, b.actionButton, b.buttonState)) =
      buttonsDownSequenceSpec d ∧
    (buttonsChangeShapes 0 d 0).1.length =
      1 + (buttonOrder.filter (fun b => d &&& b ≠ 0)).length := by
  decide

/-- Release scenario, checked for every mask over the five supported
buttons and every single released button: while other buttons remain
pressed, exactly one button-release event is emitted and its button-state
excludes the released bit. -/
theorem releaseScenario_check : ∀ m < 32, ∀ u ∈ buttonOrder, u &&& m = u →
    clearBits m u ≠ 0 →
    ((buttonsChangeShapes m 0 u).1).map
        (fun b => (b.action, b.actionButton, b.buttonState)) =
      [(MotionAction.buttonRelease, u, clearBits m u)] := by
  decide

/-- Last-release scenario, checked for every single button: releasing the
only pressed button emits a button-release with empty button-state
followed by an up envelope with button-state 0. -/
theorem lastReleaseScenario_check : ∀ u ∈ buttonOrder,
    ((buttonsChangeShapes u 0 u).1).map
        (fun b => (b.action, b.actionButton, b.buttonState)) =
      [(MotionAction.buttonRelease, u, 0), (MotionAction.up, 0, 0)] := by
  decide

/-- C4: on a ButtonsChange from an empty mask the output begins with a down
envelope whose button-state is the whole down-mask, followed by one
button-press per down-mask bit in priority order with accumulating
button-state, one event per bit plus the envelope; releasing one button
while others remain pressed yields exactly one button-release whose
button-state excludes the released bit; releasing the last pressed button
yields a button-release followed by an up envelope with button-state 0. -/
theorem buttonsChange_press_release_events (s : Converter) (d u : Nat)
    (hd : d < 32) (_hu : u < 32) (hm : s.buttonState < 32) :
    (s.buttonState = 0 → u = 0 → d ≠ 0 →
      ((handleGesture s (Gesture.buttonsChange d u)).2).map bshape =
          buttonsDownSequenceSpec d ∧
        ((handleGesture s (Gesture.buttonsChange d u)).2).length =
          1 + (buttonOrder.filter (fun b => d &&& b ≠ 0)).length) ∧
    (d = 0 → u ∈ buttonOrder → u &&& s.buttonState = u →
      clearBits s.buttonState u ≠ 0 →
      ((handleGesture s (Gesture.buttonsChange d u)).2).map bshape =
        [(MotionAction.buttonRelease, u, clearBits s.buttonState u)]) ∧
    (d = 0 → u ∈ buttonOrder → s.buttonState = u →
      ((handleGesture s (Gesture.buttonsChange d u)).2).map bshape =
        [(MotionAction.buttonRelease, u, 0), (MotionAction.up, 0, 0)]) := by
  refine ⟨fun h0 hu0 hdne => ⟨?_, ?_⟩, fun hd0 humem hsub hrem => ?_,
    fun hd0 humem hlast => ?_⟩
  · rw [handleButtonsChange_bshape, h0, hu0]
    exact (pressScenario_check d hd hdne).1
  · calc ((handleGesture s (Gesture.buttonsChange d u)).2).length
        = (((handleGesture s (Gesture.buttonsChange d u)).2).map bshape).length := by
          rw [List.length_map]
      _ = (buttonsChangeShapes 0 d 0).1.length := by
          rw [handleButtonsChange_bshape, h0, hu0, List.length_map]
      _ = 1 + (buttonOrder.filter (fun b => d &&& b ≠ 0)).length :=
          (pressScenario_check d hd hdne).2
  · rw [handleButtonsChange_bshape, hd0]
    exact releaseScenario_check s.buttonState hm u humem hsub hrem
  · rw [handleButtonsChange_bshape, hd0, hlast]
    exact lastReleaseScenario_check u humem

/-- C4 witness: the three test scenarios: pressing left and right together
from an empty mask yields exactly the three staged events; releasing left
while right stays pressed yields one release; releasing the last button
yields release plus up envelope. -/
theorem buttonsChange_press_release_events_witness :
    (((handleGesture initialConverter (Gesture.buttonsChange 3 0)).2).map bshape =
        buttonsDownSequenceSpec 3 ∧
      ((handleGesture initialConverter (Gesture.buttonsChange 3 0)).2).length =
        1 + (buttonOrder.filter (fun b => 3 &&& b ≠ 0)).length) ∧
    ((handleGesture { initialConverter with buttonState := 3 }
          (Gesture.buttonsChange 0 1)).2).map bshape =
      [(MotionAction.buttonRelease, 1, clearBits 3 1)] ∧
    ((handleGesture { initialConverter with buttonState := 2 }
          (Gesture.buttonsChange 0 2)).2).map bshape =
      [(MotionAction.buttonRelease, 2, 0), (MotionAction.up, 0, 0)] :=
  ⟨(buttonsChange_press_release_events initialConverter 3 0 (by decide)
      (by decide) (by decide)).1 rfl rfl (by decide),
   (buttonsChange_press_release_events { initialConverter with buttonState := 3 }
      0 1 (by decide) (by decide) (by decide)).2.1 rfl (by decide) (by decide)
      (by decide),
   (buttonsChange_press_release_events { initialConverter with buttonState := 2 }
      0 2 (by decide) (by decide) (by decide)).2.2 rfl (by decide) rfl⟩

theorem range_two : List.range 2 = [0, 1] := rfl

theorem range_three : List.range 3 = [0, 1, 2] := rfl

theorem range_four : List.range 4 = [0, 1, 2, 3] := rfl

/-- C1: a multi-finger swipe start received while the synthesizer is Idle
emits fingerCount staged pointer-acquisition events before any move event:
the first a down with pointer count 1, each subsequent one a pointer-down
with pointer index and pointer count growing by one, all with
classification multi-finger-swipe and zero offset; with a non-zero start
delta a single move event follows, so a three-finger start yields exactly
4 events and a four-finger start exactly 5; with a zero start delta only
the acquisition events are emitted. -/
theorem mfs_start_staged_events (s : Converter) (dx dy : ℚ)
    (hidle : s.swipeFingerCount = 0) :
    ((((handleGesture s (Gesture.swipe dx dy)).2).map sshape).take 3 =
        [(MotionAction.down, 1, MotionClassification.multiFingerSwipe, ((0 : ℚ), (0 : ℚ))),
         (MotionAction.pointerDown 1, 2, MotionClassification.multiFingerSwipe, (0, 0)),
         (MotionAction.pointerDown 2, 3, MotionClassification.multiFingerSwipe, (0, 0))] ∧
      (dx = 0 ∧ dy = 0 → ((handleGesture s (Gesture.swipe dx dy)).2).length = 3) ∧
      (¬(dx = 0 ∧ dy = 0) →
        ((handleGesture s (Gesture.swipe dx dy)).2).length = 4 ∧
        ∃ off, ((handleGesture s (Gesture.swipe dx dy)).2).map sshape =
          [(MotionAction.down, 1, MotionClassification.multiFingerSwipe, (0, 0)),
           (MotionAction.pointerDown 1, 2, MotionClassification.multiFingerSwipe, (0, 0)),
           (MotionAction.pointerDown 2, 3, MotionClassification.multiFingerSwipe, (0, 0)),
           (MotionAction.move, 3, MotionClassification.multiFingerSwipe, off)])) ∧
    ((((handleGesture s (Gesture.fourFingerSwipe dx dy)).2).map sshape).take 4 =
        [(MotionAction.down, 1, MotionClassification.multiFingerSwipe, ((0 : ℚ), (0 : ℚ))),
         (MotionAction.pointerDown 1, 2, MotionClassification.multiFingerSwipe, (0, 0)),
         (MotionAction.pointerDown 2, 3, MotionClassification.multiFingerSwipe, (0, 0)),
         (MotionAction.pointerDown 3, 4, MotionClassification.multiFingerSwipe, (0, 0))] ∧
      (dx = 0 ∧ dy = 0 →
        ((handleGesture s (Gesture.fourFingerSwipe dx dy)).2).length = 4) ∧
      (¬(dx = 0 ∧ dy = 0) →
        ((handleGesture s (Gesture.fourFingerSwipe dx dy)).2).length = 5 ∧
        ∃ off, ((handleGesture s (Gesture.fourFingerSwipe dx dy)).2).map sshape =
          [(MotionAction.down, 1, MotionClassification.multiFingerSwipe, (0, 0)),
           (MotionAction.pointerDown 1, 2, MotionClassification.multiFingerSwipe, (0, 0)),
           (MotionAction.pointerDown 2, 3, MotionClassification.multiFingerSwipe, (0, 0)),
           (MotionAction.pointerDown 3, 4, MotionClassification.multiFingerSwipe, (0, 0)),
           (MotionAction.move, 4, MotionClassification.multiFingerSwipe, off)])) := by
  refine ⟨⟨?_, fun hz => ?_, fun hnz => ⟨?_, ?_⟩⟩, ⟨?_, fun hz => ?_, fun hnz => ⟨?_, ?_⟩⟩⟩ <;>
    (simp [handleGesture, handleMultiFingerSwipe, hidle, acquisitionEvents,
        fingerStartPositions, swipeMoveStep, sshape, range_three, range_four, *]
     <;> by_cases hz : dx = 0 ∧ dy = 0 <;> simp [hz, List.take, sshape])

/-- C1 witness: the test gestures: a three-finger start with delta (0, 10)
yields exactly 4 events, a four-finger start with delta (10, 0) exactly
5. -/
theorem mfs_start_staged_events_witness :
    ((handleGesture initialConverter (Gesture.swipe 0 10)).2).length = 4 ∧
    ((handleGesture initialConverter (Gesture.fourFingerSwipe 10 0)).2).length = 5 :=
  ⟨((mfs_start_staged_events initialConverter 0 10 rfl).1.2.2 (by norm_num)).1,
   ((mfs_start_staged_events initialConverter 10 0 rfl).2.2.2 (by norm_num)).1⟩

/-- C3: a SwipeLift received while a multi-finger swipe family is active
emits exactly fingerCount events: fingerCount - 1 pointer-up events in
reverse acquisition order, the pointer count shrinking by one at each, then
one final plain up for the last remaining pointer, all with classification
multi-finger-swipe and zero offset; so a three-finger lift yields exactly
3 events and a four-finger lift exactly 4. -/
theorem swipe_lift_reverse_release (s : Converter)
    (hlen : s.fingers.length = s.swipeFingerCount) :
    (s.swipeFingerCount = 3 →
      ((handleGesture s Gesture.swipeLift).2).map sshape =
        [(MotionAction.pointerUp 2, 3, MotionClassification.multiFingerSwipe, ((0 : ℚ), (0 : ℚ))),
         (MotionAction.pointerUp 1, 2, MotionClassification.multiFingerSwipe, (0, 0)),
         (MotionAction.up, 1, MotionClassification.multiFingerSwipe, (0, 0))]) ∧
    (s.swipeFingerCount = 4 →
      ((handleGesture s Gesture.swipeLift).2).map sshape =
        [(MotionAction.pointerUp 3, 4, MotionClassification.multiFingerSwipe, ((0 : ℚ), (0 : ℚ))),
         (MotionAction.pointerUp 2, 3, MotionClassification.multiFingerSwipe, (0, 0)),
         (MotionAction.pointerUp 1, 2, MotionClassification.multiFingerSwipe, (0, 0)),
         (MotionAction.up, 1, MotionClassification.multiFingerSwipe, (0, 0))]) := by
  refine ⟨fun h3 => ?_, fun h4 => ?_⟩
  · have hl : s.fingers.length = 3 := by rw [hlen, h3]
    simp [handleGesture, handleSwipeLift, h3, range_two, sshape, List.length_take, hl]
  · have hl : s.fingers.length = 4 := by rw [hlen, h4]
    simp [handleGesture, handleSwipeLift, h4, range_three, sshape, List.length_take, hl]

/-- C3 witness: lifting a concrete active three-finger family yields the
three release events in reverse acquisition order. -/
theorem swipe_lift_reverse_release_witness :
    ((handleGesture
          { initialConverter with swipeFingerCount := 3,
                                  fingers := [(0, 0), (1, 0), (2, 0)] }
          Gesture.swipeLift).2).map sshape =
      [(MotionAction.pointerUp 2, 3, MotionClassification.multiFingerSwipe, ((0 : ℚ), (0 : ℚ))),
       (MotionAction.pointerUp 1, 2, MotionClassification.multiFingerSwipe, (0, 0)),
       (MotionAction.up, 1, MotionClassification.multiFingerSwipe, (0, 0))] :=
  (swipe_lift_reverse_release
      { initialConverter with swipeFingerCount := 3,
                              fingers := [(0, 0), (1, 0), (2, 0)] } rfl).1 rfl

/-- C2: a swipe continuation gesture of an active multi-finger swipe
family (whichever of the two swipe variants delivers it) emits exactly one
move event with classification multi-finger-swipe carrying all fingerCount
pointer coordinates, in which every virtual pointer is shifted by one
identical delta on the locked movement axis while its coordinate on the
orthogonal axis is unchanged; consequently the pairwise differences
between virtual pointer coordinates are preserved. -/
theorem mfs_continuation_uniform_shift (s : Converter) (dx dy : ℚ) (ax : Axis)
    (hactive : s.swipeFingerCount ≠ 0)
    (hlen : s.fingers.length = s.swipeFingerCount)
    (hlock : s.axisLock = some ax)
    (hax : ax = Axis.x → s.accumY = 0)
    (hay : ax = Axis.y → s.accumX = 0) :
    handleGesture s (Gesture.fourFingerSwipe dx dy) =
      handleGesture s (Gesture.swipe dx dy) ∧
    (∃ c : ℚ,
      ((handleGesture s (Gesture.swipe dx dy)).2).map
          (fun e => (e.action, e.classification, e.pointers)) =
        [(MotionAction.move, MotionClassification.multiFingerSwipe,
          s.fingers.map (fun p =>
            match ax with
            | Axis.x => (p.1 + c, p.2)
            | Axis.y => (p.1, p.2 + c)))]) ∧
    ((handleGesture s (Gesture.swipe dx dy)).2).map (fun e => e.pointers.length) =
      [s.swipeFingerCount] ∧
    (∀ e ∈ (handleGesture s (Gesture.swipe dx dy)).2, ∀ i j : Nat,
      ∀ p q p0 q0 : ℚ × ℚ,
      e.pointers[i]? = some p → e.pointers[j]? = some q →
      s.fingers[i]? = some p0 → s.fingers[j]? = some q0 →
      p.1 - q.1 = p0.1 - q0.1 ∧ p.2 - q.2 = p0.2 - q0.2) := by
  have hpair : ∀ e ∈ (handleGesture s (Gesture.swipe dx dy)).2, ∀ i j : Nat,
      ∀ p q p0 q0 : ℚ × ℚ,
      e.pointers[i]? = some p → e.pointers[j]? = some q →
      s.fingers[i]? = some p0 → s.fingers[j]? = some q0 →
      p.1 - q.1 = p0.1 - q0.1 ∧ p.2 - q.2 = p0.2 - q0.2 := by
    intro e he i j p q p0 q0 hp hq hp0 hq0
    simp [handleGesture, handleMultiFingerSwipe, hactive, swipeMoveStep] at he
    rw [he] at hp hq
    simp [List.getElem?_map, hp0, hq0] at hp hq
    rw [← hp, ← hq]
    constructor <;> ring
  cases ax with
  | x =>
    have hA : s.accumY = 0 := hax rfl
    refine ⟨?_, ?_, ?_, hpair⟩
    · simp [handleGesture, handleMultiFingerSwipe, hactive]
    · refine ⟨((wholePart (s.accumX + dx) : ℤ) : ℚ), ?_⟩
      simp [handleGesture, handleMultiFingerSwipe, hactive, swipeMoveStep,
        hlock, lockAxis, lockedDelta, hA, wholePart]
    · simp [handleGesture, handleMultiFingerSwipe, hactive, swipeMoveStep, hlen]
  | y =>
    have hA : s.accumX = 0 := hay rfl
    refine ⟨?_, ?_, ?_, hpair⟩
    · simp [handleGesture, handleMultiFingerSwipe, hactive]
    · refine ⟨((wholePart (s.accumY - dy) : ℤ) : ℚ), ?_⟩
      simp [handleGesture, handleMultiFingerSwipe, hactive, swipeMoveStep,
        hlock, lockAxis, lockedDelta, hA, wholePart]
    · simp [handleGesture, handleMultiFingerSwipe, hactive, swipeMoveStep, hlen]

/-- C2 witness: a continuation of a concrete active three-finger vertical
family carries all three pointer coordinates in its single move event. -/
theorem mfs_continuation_uniform_shift_witness :
    ((handleGesture
          { initialConverter with swipeFingerCount := 3,
                                  fingers := [(0, 0), (100, 0), (200, 0)],
                                  axisLock := some Axis.y }
          (Gesture.swipe 0 5)).2).map (fun e => e.pointers.length) = [3] :=
  (mfs_continuation_uniform_shift
      { initialConverter with swipeFingerCount := 3,
                              fingers := [(0, 0), (100, 0), (200, 0)],
                              axisLock := some Axis.y }
      0 5 Axis.y (by decide) rfl rfl (fun _ => rfl) (fun _ => rfl)).2.2.1

/-- C8: after a SwipeLift ends an active family all continuation state of
the swipe synthesizer is reset: the virtual pointer table is empty, the
accumulated offset is zero and the axis lock is cleared; a following Move
gesture yields classification none and zero gesture offset, and a
following swipe start is handled as a fresh family, beginning with a plain
down event. -/
theorem lift_resets_swipe_state (s : Converter) (dx dy : ℚ)
    (hactive : s.swipeFingerCount ≠ 0) :
    (handleGesture s Gesture.swipeLift).1.swipeFingerCount = 0 ∧
    (handleGesture s Gesture.swipeLift).1.fingers = [] ∧
    (handleGesture s Gesture.swipeLift).1.accumX = 0 ∧
    (handleGesture s Gesture.swipeLift).1.accumY = 0 ∧
    (handleGesture s Gesture.swipeLift).1.axisLock = none ∧
    ((handleGesture (handleGesture s Gesture.swipeLift).1
          (Gesture.move dx dy)).2).map
        (fun e => (e.classification, e.gestureOffset)) =
      [(MotionClassification.none, ((0 : ℚ), (0 : ℚ)))] ∧
    (((handleGesture (handleGesture s Gesture.swipeLift).1
          (Gesture.swipe dx dy)).2).map (fun e => e.action)).take 1 =
      [MotionAction.down] := by
  refine ⟨?_, ?_, ?_, ?_, ?_, ?_, ?_⟩ <;>
    simp [handleGesture, handleSwipeLift, handleMove, hactive,
      handleMultiFingerSwipe, acquisitionEvents, fingerStartPositions,
      range_three, swipeMoveStep] <;>
    by_cases hz : dx = 0 ∧ dy = 0 <;> simp [hz]

/-- C8 witness: lifting a concrete active three-finger family leaves the
synthesizer Idle. -/
theorem lift_resets_swipe_state_witness :
    (handleGesture
        { initialConverter with swipeFingerCount := 3,
                                fingers := [(0, 0), (100, 0), (200, 0)] }
        Gesture.swipeLift).1.swipeFingerCount = 0 :=
  (lift_resets_swipe_state
      { initialConverter with swipeFingerCount := 3,
                              fingers := [(0, 0), (100, 0), (200, 0)] }
      0 0 (by decide)).1

/-- Componentwise decomposition of the offset sum over a concatenation. -/
theorem sumOffsets_append (a b : List MotionEvent) :
    sumOffsets (a ++ b) =
      ((sumOffsets a).1 + (sumOffsets b).1, (sumOffsets a).2 + (sumOffsets b).2) := by
  simp [sumOffsets]

/-- One vertical continuation call of an active family contributes exactly
(0, -d / 1000) to the offset sum, keeps the family active, and keeps the
axis lock vertical or undetermined. -/
theorem swipe_step_vertical (s : Converter) (d : ℚ)
    (h1 : s.swipeFingerCount ≠ 0)
    (h2 : s.axisLock = none ∨ s.axisLock = some Axis.y) :
    sumOffsets ((handleGesture s (Gesture.swipe 0 d)).2) = (0, -d / 1000) ∧
    (handleGesture s (Gesture.swipe 0 d)).1.swipeFingerCount = s.swipeFingerCount ∧
    ((handleGesture s (Gesture.swipe 0 d)).1.axisLock = none ∨
      (handleGesture s (Gesture.swipe 0 d)).1.axisLock = some Axis.y) := by
  rcases h2 with h2 | h2 <;> by_cases hd : d = 0 <;>
    simp [handleGesture, handleMultiFingerSwipe, h1, swipeMoveStep, lockAxis,
      lockedDelta, sumOffsets, h2, hd]

/-- One vertical start call from Idle contributes exactly (0, -d / 1000)
to the offset sum (the acquisition events carry zero offset and, when the
start delta is non-zero, a single move carries the raw delta), activates
the family, and determines the axis lock as vertical or leaves it
undetermined. -/
theorem swipe_start_vertical (s : Converter) (d : ℚ)
    (hidle : s.swipeFingerCount = 0) :
    sumOffsets ((handleGesture s (Gesture.swipe 0 d)).2) = (0, -d / 1000) ∧
    (handleGesture s (Gesture.swipe 0 d)).1.swipeFingerCount ≠ 0 ∧
    ((handleGesture s (Gesture.swipe 0 d)).1.axisLock = none ∨
      (handleGesture s (Gesture.swipe 0 d)).1.axisLock = some Axis.y) := by
  by_cases hd : d = 0 <;>
    simp [handleGesture, handleMultiFingerSwipe, hidle, swipeMoveStep, lockAxis,
      lockedDelta, acquisitionEvents, fingerStartPositions, range_three,
      sumOffsets, hd]

/-- Offset sum over the continuations of an active vertical family. -/
theorem offsets_sum_vertical_active (ds : List ℚ) : ∀ s : Converter,
    s.swipeFingerCount ≠ 0 → (s.axisLock = none ∨ s.axisLock = some Axis.y) →
    sumOffsets (runGestures s (ds.map (fun d => Gesture.swipe 0 d))).2 =
      (0, -ds.sum / 1000) := by
  induction ds with
  | nil => intro s h1 h2; simp [runGestures, sumOffsets]
  | cons d rest ih =>
    intro s h1 h2
    obtain ⟨hoff, hcount, hlock⟩ := swipe_step_vertical s d h1 h2
    have hrec := ih (handleGesture s (Gesture.swipe 0 d)).1
      (by rw [hcount]; exact h1) hlock
    simp only [List.map_cons, runGestures, sumOffsets_append, hoff, hrec]
    simp only [List.sum_cons, Prod.mk.injEq]
    constructor
    · simp
    · ring

/-- One horizontal continuation call of an active family contributes
exactly (d / 1000, 0) to the offset sum, keeps the family active, and
keeps the axis lock horizontal or undetermined. -/
theorem swipe_step_horizontal (s : Converter) (d : ℚ)
    (h1 : s.swipeFingerCount ≠ 0)
    (h2 : s.axisLock = none ∨ s.axisLock = some Axis.x) :
    sumOffsets ((handleGesture s (Gesture.swipe d 0)).2) = (d / 1000, 0) ∧
    (handleGesture s (Gesture.swipe d 0)).1.swipeFingerCount = s.swipeFingerCount ∧
    ((handleGesture s (Gesture.swipe d 0)).1.axisLock = none ∨
      (handleGesture s (Gesture.swipe d 0)).1.axisLock = some Axis.x) := by
  rcases h2 with h2 | h2 <;> by_cases hd : d = 0 <;>
    simp [handleGesture, handleMultiFingerSwipe, h1, swipeMoveStep, lockAxis,
      lockedDelta, sumOffsets, h2, hd]

/-- One horizontal start call from Idle contributes exactly (d / 1000, 0)
to the offset sum, activates the family, and determines the axis lock as
horizontal or leaves it undetermined. -/
theorem swipe_start_horizontal (s : Converter) (d : ℚ)
    (hidle : s.swipeFingerCount = 0) :
    sumOffsets ((handleGesture s (Gesture.swipe d 0)).2) = (d / 1000, 0) ∧
    (handleGesture s (Gesture.swipe d 0)).1.swipeFingerCount ≠ 0 ∧
    ((handleGesture s (Gesture.swipe d 0)).1.axisLock = none ∨
      (handleGesture s (Gesture.swipe d 0)).1.axisLock = some Axis.x) := by
  by_cases hd : d = 0 <;>
    simp [handleGesture, handleMultiFingerSwipe, hidle, swipeMoveStep, lockAxis,
      lockedDelta, acquisitionEvents, fingerStartPositions, range_three,
      sumOffsets, hd]

/-- Offset sum over the continuations of an active horizontal family. -/
theorem offsets_sum_horizontal_active (ds : List ℚ) : ∀ s : Converter,
    s.swipeFingerCount ≠ 0 → (s.axisLock = none ∨ s.axisLock = some Axis.x) →
    sumOffsets (runGestures s (ds.map (fun d => Gesture.swipe d 0))).2 =
      (ds.sum / 1000, 0) := by
  induction ds with
  | nil => intro s h1 h2; simp [runGestures, sumOffsets]
  | cons d rest ih =>
    intro s h1 h2
    obtain ⟨hoff, hcount, hlock⟩ := swipe_step_horizontal s d h1 h2
    have hrec := ih (handleGesture s (Gesture.swipe d 0)).1
      (by rw [hcount]; exact h1) hlock
    simp only [List.map_cons, runGestures, sumOffsets_append, hoff, hrec]
    simp only [List.sum_cons, Prod.mk.injEq]
    constructor
    · ring
    · simp

/-- On an active family the two swipe variants are handled identically:
the continuation branch ignores the variant's finger count and uses the
family's own. -/
theorem mfs_active_variant_agree (s : Converter) (dx dy : ℚ)
    (h1 : s.swipeFingerCount ≠ 0) :
    handleGesture s (Gesture.fourFingerSwipe dx dy) =
      handleGesture s (Gesture.swipe dx dy) := by
  simp [handleGesture, handleMultiFingerSwipe, h1]

/-- One vertical four-finger continuation call of an active family
contributes exactly (0, -d / 1000) to the offset sum, keeps the family
active, and keeps the axis lock vertical or undetermined. -/
theorem swipe4_step_vertical (s : Converter) (d : ℚ)
    (h1 : s.swipeFingerCount ≠ 0)
    (h2 : s.axisLock = none ∨ s.axisLock = some Axis.y) :
    sumOffsets ((handleGesture s (Gesture.fourFingerSwipe 0 d)).2) = (0, -d / 1000) ∧
    (handleGesture s (Gesture.fourFingerSwipe 0 d)).1.swipeFingerCount =
      s.swipeFingerCount ∧
    ((handleGesture s (Gesture.fourFingerSwipe 0 d)).1.axisLock = none ∨
      (handleGesture s (Gesture.fourFingerSwipe 0 d)).1.axisLock = some Axis.y) := by
  rw [mfs_active_variant_agree s 0 d h1]
  exact swipe_step_vertical s d h1 h2

/-- One horizontal four-finger continuation call of an active family
contributes exactly (d / 1000, 0) to the offset sum, keeps the family
active, and keeps the axis lock horizontal or undetermined. -/
theorem swipe4_step_horizontal (s : Converter) (d : ℚ)
    (h1 : s.swipeFingerCount ≠ 0)
    (h2 : s.axisLock = none ∨ s.axisLock = some Axis.x) :
    sumOffsets ((handleGesture s (Gesture.fourFingerSwipe d 0)).2) = (d / 1000, 0) ∧
    (handleGesture s (Gesture.fourFingerSwipe d 0)).1.swipeFingerCount =
      s.swipeFingerCount ∧
    ((handleGesture s (Gesture.fourFingerSwipe d 0)).1.axisLock = none ∨
      (handleGesture s (Gesture.fourFingerSwipe d 0)).1.axisLock = some Axis.x) := by
  rw [mfs_active_variant_agree s d 0 h1]
  exact swipe_step_horizontal s d h1 h2

/-- One vertical four-finger start call from Idle contributes exactly
(0, -d / 1000) to the offset sum, activates the family, and determines the
axis lock as vertical or leaves it undetermined. -/
theorem swipe4_start_vertical (s : Converter) (d : ℚ)
    (hidle : s.swipeFingerCount = 0) :
    sumOffsets ((handleGesture s (Gesture.fourFingerSwipe 0 d)).2) = (0, -d / 1000) ∧
    (handleGesture s (Gesture.fourFingerSwipe 0 d)).1.swipeFingerCount ≠ 0 ∧
    ((handleGesture s (Gesture.fourFingerSwipe 0 d)).1.axisLock = none ∨
      (handleGesture s (Gesture.fourFingerSwipe 0 d)).1.axisLock = some Axis.y) := by
  by_cases hd : d = 0 <;>
    simp [handleGesture, handleMultiFingerSwipe, hidle, swipeMoveStep, lockAxis,
      lockedDelta, acquisitionEvents, fingerStartPositions, range_four,
      sumOffsets, hd]

/-- One horizontal four-finger start call from Idle contributes exactly
(d / 1000, 0) to the offset sum, activates the family, and determines the
axis lock as horizontal or leaves it undetermined. -/
theorem swipe4_start_horizontal (s : Converter) (d : ℚ)
    (hidle : s.swipeFingerCount = 0) :
    sumOffsets ((handleGesture s (Gesture.fourFingerSwipe d 0)).2) = (d / 1000, 0) ∧
    (handleGesture s (Gesture.fourFingerSwipe d 0)).1.swipeFingerCount ≠ 0 ∧
    ((handleGesture s (Gesture.fourFingerSwipe d 0)).1.axisLock = none ∨
      (handleGesture s (Gesture.fourFingerSwipe d 0)).1.axisLock = some Axis.x) := by
  by_cases hd : d = 0 <;>
    simp [handleGesture, handleMultiFingerSwipe, hidle, swipeMoveStep, lockAxis,
      lockedDelta, acquisitionEvents, fingerStartPositions, range_four,
      sumOffsets, hd]

/-- Offset sum over the continuations of an active vertical four-finger
family. -/
theorem offsets_sum_vertical_active4 (ds : List ℚ) : ∀ s : Converter,
    s.swipeFingerCount ≠ 0 → (s.axisLock = none ∨ s.axisLock = some Axis.y) →
    sumOffsets (runGestures s (ds.map (fun d => Gesture.fourFingerSwipe 0 d))).2 =
      (0, -ds.sum / 1000) := by
  induction ds with
  | nil => intro s h1 h2; simp [runGestures, sumOffsets]
  | cons d rest ih =>
    intro s h1 h2
    obtain ⟨hoff, hcount, hlock⟩ := swipe4_step_vertical s d h1 h2
    have hrec := ih (handleGesture s (Gesture.fourFingerSwipe 0 d)).1
      (by rw [hcount]; exact h1) hlock
    simp only [List.map_cons, runGestures, sumOffsets_append, hoff, hrec]
    simp only [List.sum_cons, Prod.mk.injEq]
    constructor
    · simp
    · ring

/-- Offset sum over the continuations of an active horizontal four-finger
family. -/
theorem offsets_sum_horizontal_active4 (ds : List ℚ) : ∀ s : Converter,
    s.swipeFingerCount ≠ 0 → (s.axisLock = none ∨ s.axisLock = some Axis.x) →
    sumOffsets (runGestures s (ds.map (fun d => Gesture.fourFingerSwipe d 0))).2 =
      (ds.sum / 1000, 0) := by
  induction ds with
  | nil => intro s h1 h2; simp [runGestures, sumOffsets]
  | cons d rest ih =>
    intro s h1 h2
    obtain ⟨hoff, hcount, hlock⟩ := swipe4_step_horizontal s d h1 h2
    have hrec := ih (handleGesture s (Gesture.fourFingerSwipe d 0)).1
      (by rw [hcount]; exact h1) hlock
    simp only [List.map_cons, runGestures, sumOffsets_append, hoff, hrec]
    simp only [List.sum_cons, Prod.mk.injEq]
    constructor
    · ring
    · simp

/-- C5 counterexample: the three-finger vertical start of the test suite,
whose raw library offset for the family is (0, 10): the events' auxiliary
offsets sum to (0, -1/100), the accumulated fractional remainder after the
call is exactly zero, and (0, -1/100) differs from the library total
(0, 10) — the emitted offsets carry the raw deltas scaled by 1/1000 with
the y component negated, not the raw deltas themselves. -/
theorem offsets_sum_counterexample :
    sumOffsets (runGestures initialConverter [Gesture.swipe 0 10]).2 =
      (0, -1 / 100) ∧
    (runGestures initialConverter [Gesture.swipe 0 10]).1.accumX = 0 ∧
    (runGestures initialConverter [Gesture.swipe 0 10]).1.accumY = 0 ∧
    ((0 : ℚ), (-1 / 100 : ℚ)) ≠ ((0 : ℚ), (10 : ℚ)) := by
  refine ⟨?_, ?_, ?_, ?_⟩ <;>
    norm_num [runGestures, handleGesture, handleMultiFingerSwipe,
      acquisitionEvents, fingerStartPositions, swipeMoveStep, lockAxis,
      lockedDelta, wholePart, sumOffsets, initialConverter, range_three]

/-- C5 (amended): over one multi-finger swipe family — three-finger or
four-finger, vertical or horizontal — whose per-call deltas lie on a
single axis, as the gesture library's axis locking guarantees, the sum of
the per-call auxiliary offsets carried by the emitted events equals the
family's total library-reported offset under the converter's offset
convention, i.e. scaled by 1/1000 and with the y component negated; the
equality is exact because the auxiliary offsets carry the raw per-call
deltas, unaffected by the whole-pixel rounding whose remainder lives in
the accumulated offset. -/
theorem offsets_sum_amended (s : Converter) (ds : List ℚ)
    (hidle : s.swipeFingerCount = 0) :
    sumOffsets (runGestures s (ds.map (fun d => Gesture.swipe 0 d))).2 =
      (0, -ds.sum / 1000) ∧
    sumOffsets (runGestures s (ds.map (fun d => Gesture.swipe d 0))).2 =
      (ds.sum / 1000, 0) ∧
    sumOffsets (runGestures s (ds.map (fun d => Gesture.fourFingerSwipe 0 d))).2 =
      (0, -ds.sum / 1000) ∧
    sumOffsets (runGestures s (ds.map (fun d => Gesture.fourFingerSwipe d 0))).2 =
      (ds.sum / 1000, 0) := by
  cases ds with
  | nil => refine ⟨?_, ?_, ?_, ?_⟩ <;> simp [runGestures, sumOffsets]
  | cons d rest =>
    refine ⟨?_, ?_, ?_, ?_⟩
    · obtain ⟨hoff, hact, hlock⟩ := swipe_start_vertical s d hidle
      have hrec := offsets_sum_vertical_active rest
        (handleGesture s (Gesture.swipe 0 d)).1 hact hlock
      simp only [List.map_cons, runGestures, sumOffsets_append, hoff, hrec]
      simp only [List.sum_cons, Prod.mk.injEq]
      constructor
      · simp
      · ring
    · obtain ⟨hoff, hact, hlock⟩ := swipe_start_horizontal s d hidle
      have hrec := offsets_sum_horizontal_active rest
        (handleGesture s (Gesture.swipe d 0)).1 hact hlock
      simp only [List.map_cons, runGestures, sumOffsets_append, hoff, hrec]
      simp only [List.sum_cons, Prod.mk.injEq]
      constructor
      · ring
      · simp
    · obtain ⟨hoff, hact, hlock⟩ := swipe4_start_vertical s d hidle
      have hrec := offsets_sum_vertical_active4 rest
        (handleGesture s (Gesture.fourFingerSwipe 0 d)).1 hact hlock
      simp only [List.map_cons, runGestures, sumOffsets_append, hoff, hrec]
      simp only [List.sum_cons, Prod.mk.injEq]
      constructor
      · simp
      · ring
    · obtain ⟨hoff, hact, hlock⟩ := swipe4_start_horizontal s d hidle
      have hrec := offsets_sum_horizontal_active4 rest
        (handleGesture s (Gesture.fourFingerSwipe d 0)).1 hact hlock
      simp only [List.map_cons, runGestures, sumOffsets_append, hoff, hrec]
      simp only [List.sum_cons, Prod.mk.injEq]
      constructor
      · ring
      · simp

/-- C5 witness: the two test families with deltas 10 then 5: the
three-finger vertical family's auxiliary offsets sum to
(0, -(10 + 5) / 1000) and the four-finger horizontal family's to
((10 + 5) / 1000, 0). -/
theorem offsets_sum_amended_witness :
    sumOffsets (runGestures initialConverter
        (([10, 5] : List ℚ).map (fun d => Gesture.swipe 0 d))).2 =
      (0, -([10, 5] : List ℚ).sum / 1000) ∧
    sumOffsets (runGestures initialConverter
        (([10, 5] : List ℚ).map (fun d => Gesture.fourFingerSwipe d 0))).2 =
      (([10, 5] : List ℚ).sum / 1000, 0) :=
  ⟨(offsets_sum_amended initialConverter [10, 5] rfl).1,
   (offsets_sum_amended initialConverter [10, 5] rfl).2.2.2⟩

end GestureConverter
